import Mathlib

/-!
Verification of the Booking Admission & Reconciliation Engine of the MoveCal
repository (backend/src): the slot-validity policy (`moveTimeValidator.ts`),
the buffered elevator-conflict detector (`conflictService.ts`), the
auto-approval sweep (`autoApprovalService.ts`), the payment reconciliation
matcher (`moveApprovalService.ts`, the Invoice Ninja poller, the webhook and
the admin payments-ledger routes), and the public bookings view.

Timestamps are embedded as naive local date-times at minute granularity:
a civil day number (days since 1970-01-01) plus minutes since midnight.
Database tables are embedded as lists of records; each request handler or
background step becomes a pure function on that state, faithful to the order
of reads, guards and writes in the source.
-/

namespace MoveCal

/-- Civil day number (days since 1970-01-01) of a Gregorian date, by the
standard era-based algorithm; valid for all dates used here (years ≥ 1970). -/
def daysFromCivil (y m d : Nat) : Nat :=
  let y' := if m ≤ 2 then y - 1 else y
  let era := y' / 400
  let yoe := y' % 400
  let mp := if m > 2 then m - 3 else m + 9
  let doy := (153 * mp + 2) / 5 + d - 1
  let doe := yoe * 365 + yoe / 4 - yoe / 100 + doy
  era * 146097 + doe - 719468

/-- A naive local timestamp: `day` is the civil day number and `mins` the
minutes since local midnight (a `Date` at minute granularity). -/
structure Timestamp where
  day : Nat
  mins : Nat
deriving DecidableEq, Repr

/-- Total minutes since the epoch; orders timestamps the way dayjs
`isBefore`/`isAfter` order the underlying instants. -/
def toMins (t : Timestamp) : Nat :=
  t.day * 1440 + t.mins

/-- Total minutes since the epoch as an integer, for buffer arithmetic. -/
def toMinsZ (t : Timestamp) : Int :=
  (t.day : Int) * 1440 + (t.mins : Int)

/-- Day of week of a civil day number, JS convention: 0 = Sunday … 6 =
Saturday (1970-01-01 was a Thursday, hence the +4). -/
def dayOfWeek (day : Nat) : Nat :=
  (day + 4) % 7

/-! ## Slot policy — `backend/src/utils/moveTimeValidator.ts` -/

/-- STATUTORY_HOLIDAYS from `moveTimeValidator.ts` (BC statutory holidays
2025–2030), as (year, month, day) triples standing for the 'YYYY-MM-DD'
strings of the source. -/
def STATUTORY_HOLIDAYS : List (Nat × Nat × Nat) :=
  [ (2025, 1, 1), (2025, 2, 17), (2025, 4, 18), (2025, 5, 19), (2025, 7, 1),
    (2025, 8, 4), (2025, 9, 1), (2025, 10, 13), (2025, 11, 11), (2025, 12, 25),
    (2025, 12, 26),
    (2026, 1, 1), (2026, 2, 16), (2026, 4, 3), (2026, 5, 18), (2026, 7, 1),
    (2026, 8, 3), (2026, 9, 7), (2026, 10, 12), (2026, 11, 11), (2026, 12, 25),
    (2026, 12, 26),
    (2027, 1, 1), (2027, 2, 15), (2027, 3, 26), (2027, 5, 24), (2027, 7, 1),
    (2027, 8, 2), (2027, 9, 6), (2027, 10, 11), (2027, 11, 11), (2027, 12, 25),
    (2027, 12, 26),
    (2028, 1, 1), (2028, 2, 21), (2028, 4, 14), (2028, 5, 22), (2028, 7, 1),
    (2028, 8, 7), (2028, 9, 4), (2028, 10, 9), (2028, 11, 11), (2028, 12, 25),
    (2028, 12, 26),
    (2029, 1, 1), (2029, 2, 19), (2029, 3, 30), (2029, 5, 21), (2029, 7, 1),
    (2029, 8, 6), (2029, 9, 3), (2029, 10, 8), (2029, 11, 11), (2029, 12, 25),
    (2029, 12, 26),
    (2030, 1, 1), (2030, 2, 18), (2030, 4, 19), (2030, 5, 20), (2030, 7, 1),
    (2030, 8, 5), (2030, 9, 2), (2030, 10, 14), (2030, 11, 11), (2030, 12, 25),
    (2030, 12, 26) ]

/-- The holiday calendar as civil day numbers; `STATUTORY_HOLIDAYS.includes
(start.format('YYYY-MM-DD'))` becomes membership of the start's day here. -/
def holidayDays : List Nat :=
  STATUTORY_HOLIDAYS.map fun ymd => daysFromCivil ymd.1 ymd.2.1 ymd.2.2

/-- Result record of `validateMoveTime` ({valid, error?}). -/
structure MoveTimeValidationResult where
  valid : Bool
  error : Option String
deriving DecidableEq, Repr

/-- WEEKDAY_SLOTS: 10:00 AM – 1:00 PM and 1:00 PM – 4:00 PM, in minutes. -/
def WEEKDAY_SLOTS : List (Nat × Nat) :=
  [(10 * 60, 13 * 60), (13 * 60, 16 * 60)]

/-- WEEKEND_SLOTS: 8:00–11:00 AM, 11:00 AM–2:00 PM, 2:00–5:00 PM. -/
def WEEKEND_SLOTS : List (Nat × Nat) :=
  [(8 * 60, 11 * 60), (11 * 60, 14 * 60), (14 * 60, 17 * 60)]

/-- DELIVERY/RENO weekday range 10:00 AM – 4:00 PM. -/
def DELIVERY_RENO_WEEKDAY : Nat × Nat := (10 * 60, 16 * 60)

/-- DELIVERY/RENO weekend range 8:00 AM – 5:00 PM. -/
def DELIVERY_RENO_WEEKEND : Nat × Nat := (8 * 60, 17 * 60)

/-- fitsInSlot: some listed slot contains [startMins, endMins]. -/
def fitsInSlot (startMins endMins : Nat) (slots : List (Nat × Nat)) : Bool :=
  slots.any fun se => decide (startMins ≥ se.1 ∧ endMins ≤ se.2)

/-- validateMoveTime from `moveTimeValidator.ts`. `moveType` is the optional
string the source receives; any type other than 'DELIVERY' and 'RENO'
(including MOVE_IN/MOVE_OUT and absent) falls through to fixed-slot
validation. The `isValid` check on the parsed dates is omitted: every
`Timestamp` is a valid date by construction. -/
def validateMoveTime (start stop : Timestamp) (moveType : Option String) :
    MoveTimeValidationResult :=
  if ¬ toMins start < toMins stop then
    ⟨false, some "Start time must be before end time"⟩
  else if ¬ start.day = stop.day then
    ⟨false, some "Booking must start and end on the same day"⟩
  else if holidayDays.contains start.day then
    ⟨false, some "Bookings are not permitted on statutory holidays"⟩
  else
    let startMins := start.mins
    let endMins := stop.mins
    let isWeekend := dayOfWeek start.day == 0 || dayOfWeek start.day == 6
    if moveType = some "DELIVERY" then
      let durationMins := toMins stop - toMins start
      if ¬ durationMins = 30 then
        ⟨false, some "Delivery bookings must be exactly 30 minutes"⟩
      else
        let range := if isWeekend then DELIVERY_RENO_WEEKEND else DELIVERY_RENO_WEEKDAY
        if startMins < range.1 ∨ endMins > range.2 then
          ⟨false, some (if isWeekend then
              "Delivery bookings must be within weekend hours: 8:00 AM – 5:00 PM"
            else
              "Delivery bookings must be within weekday hours: 10:00 AM – 4:00 PM")⟩
        else ⟨true, none⟩
    else if moveType = some "RENO" then
      let durationMins := toMins stop - toMins start
      if ¬ durationMins = 60 then
        ⟨false, some "Renovation bookings must be exactly 1 hour"⟩
      else
        let range := if isWeekend then DELIVERY_RENO_WEEKEND else DELIVERY_RENO_WEEKDAY
        if startMins < range.1 ∨ endMins > range.2 then
          ⟨false, some (if isWeekend then
              "Renovation bookings must be within weekend hours: 8:00 AM – 5:00 PM"
            else
              "Renovation bookings must be within weekday hours: 10:00 AM – 4:00 PM")⟩
        else ⟨true, none⟩
    else if isWeekend then
      if ¬ fitsInSlot startMins endMins WEEKEND_SLOTS then
        ⟨false, some "Weekend moves must fit within one permitted slot: 8am–11am, 11am–2pm, or 2pm–5pm"⟩
      else ⟨true, none⟩
    else if 1 ≤ dayOfWeek start.day ∧ dayOfWeek start.day ≤ 5 then
      if ¬ fitsInSlot startMins endMins WEEKDAY_SLOTS then
        ⟨false, some "Weekday moves must fit within one permitted slot: 10am–1pm or 1pm–4pm"⟩
      else ⟨true, none⟩
    else ⟨false, some "Invalid day of week"⟩

/-! ## Data model — `prisma/migrations/0001_init` plus the payments tables -/

/-- BookingStatus enum. -/
inductive BookingStatus
  | SUBMITTED | PENDING | APPROVED | REJECTED | CANCELLED
deriving DecidableEq, Repr

/-- MoveType enum (RENO added by migration 0002). -/
inductive MoveType
  | MOVE_IN | MOVE_OUT | DELIVERY | RENO
deriving DecidableEq, Repr

/-- UserRole enum. -/
inductive UserRole
  | CONCIERGE | COUNCIL | PROPERTY_MANAGER
deriving DecidableEq, Repr

/-- A user row; only the fields the verified components read. -/
structure User where
  id : String
  role : UserRole
deriving DecidableEq, Repr

/-- A bookings row. Requester contact fields, company, notes and the
updated-at column are carried opaquely by the source components verified
here and are omitted. `moveDate` is a civil day number; `createdAt`,
`approvedAt` are epoch minutes. -/
structure Booking where
  id : String
  unit : String
  publicUnitMask : Option String
  moveType : MoveType
  moveDate : Nat
  startDatetime : Timestamp
  endDatetime : Timestamp
  elevatorRequired : Bool
  loadingBayRequired : Bool
  status : BookingStatus
  createdAt : Int
  approvedById : Option String
  approvedAt : Option Int
deriving DecidableEq, Repr

/-! ## Conflict detector — `backend/src/services/conflictService.ts` -/

/-- MOVE_START_HOUR: outer bound 8 AM. -/
def MOVE_START_HOUR : Nat := 8

/-- MOVE_END_HOUR: outer bound 5 PM. -/
def MOVE_END_HOUR : Nat := 17

/-- BUFFER_MINUTES: 60-minute idle margin between elevator bookings. -/
def BUFFER_MINUTES : Int := 60

/-- ConflictCandidate: the interval handed to the conflict service; `id` is
set when re-checking an existing booking (its own row is then excluded). -/
structure ConflictCandidate where
  id : Option String
  startDatetime : Timestamp
  endDatetime : Timestamp
  elevatorRequired : Bool
deriving DecidableEq, Repr

/-- The projection `select { startDatetime, endDatetime, elevatorRequired }`
used by assertNoConflict's query. -/
structure BookingSlot where
  startDatetime : Timestamp
  endDatetime : Timestamp
  elevatorRequired : Bool
deriving DecidableEq, Repr

/-- validateMoveHours: end after start, and both within the absolute outer
bounds 8:00 AM – 5:00 PM (an end at exactly 17:00 passes, one minute past
fails). Errors are thrown; embedded as `Except`. -/
def validateMoveHours (start stop : Timestamp) : Except String Unit :=
  if ¬ toMins start < toMins stop then
    .error "End time must be after start time"
  else if start.mins / 60 < MOVE_START_HOUR ∨ stop.mins / 60 > MOVE_END_HOUR ∨
      (stop.mins / 60 = MOVE_END_HOUR ∧ stop.mins % 60 > 0) then
    .error "Booking must be within permitted move hours (8:00 AM – 5:00 PM)"
  else .ok ()

/-- hasElevatorConflict: a non-elevator candidate never conflicts; otherwise
some existing elevator slot overlaps the candidate interval buffered by 60
minutes on both ends (strict overlap test). -/
def hasElevatorConflict (existing : List BookingSlot) (candidate : ConflictCandidate) : Bool :=
  if ¬ candidate.elevatorRequired then false
  else
    let cStart := toMinsZ candidate.startDatetime - BUFFER_MINUTES
    let cEnd := toMinsZ candidate.endDatetime + BUFFER_MINUTES
    existing.any fun b =>
      b.elevatorRequired && decide (cStart < toMinsZ b.endDatetime) &&
        decide (cEnd > toMinsZ b.startDatetime)

/-- Statuses the conflict query considers active. -/
def activeStatuses : List BookingStatus :=
  [.SUBMITTED, .PENDING, .APPROVED]

/-- The `booking.findMany` where-clause of assertNoConflict: elevator-required
rows with active status, the candidate's own row excluded, pre-filtered to
the buffered window (non-strict bounds, as Prisma lte/gte). -/
def conflictQuery (db : List Booking) (candidate : ConflictCandidate) : List BookingSlot :=
  (db.filter fun b =>
    b.elevatorRequired &&
    decide (b.status ∈ activeStatuses) &&
    (match candidate.id with
      | some i => decide (¬ b.id = i)
      | none => true) &&
    decide (toMinsZ b.startDatetime ≤ toMinsZ candidate.endDatetime + BUFFER_MINUTES) &&
    decide (toMinsZ candidate.startDatetime - BUFFER_MINUTES ≤ toMinsZ b.endDatetime)
  ).map fun b => ⟨b.startDatetime, b.endDatetime, b.elevatorRequired⟩

/-- assertNoConflict: hours sanity check first, then the conflict test,
suppressed when `allowOverride` is set. -/
def assertNoConflict (db : List Booking) (candidate : ConflictCandidate)
    (allowOverride : Bool) : Except String Unit :=
  match validateMoveHours candidate.startDatetime candidate.endDatetime with
  | .error e => .error e
  | .ok _ =>
    let existing := conflictQuery db candidate
    if !allowOverride && hasElevatorConflict existing candidate then
      .error "Elevator conflict detected with 60-minute buffer rule"
    else .ok ()

/-- The conflict decision assertNoConflict acts on: the buffered-overlap test
over the rows its query returns. -/
def detectsElevatorConflict (db : List Booking) (candidate : ConflictCandidate) : Bool :=
  hasElevatorConflict (conflictQuery db candidate) candidate

/-! ## String helpers

JS string operations (`split('-')`, `endsWith`, `includes('-')`,
`Number(...)`) embedded over the character list of a `String`, so that every
definition evaluates inside the kernel. -/

/-- splitDash: the character-level model of JS `s.split('-')`. -/
def splitDash : List Char → List (List Char)
  | [] => [[]]
  | c :: rest =>
    match splitDash rest with
    | [] => [[]]
    | seg :: segs => if c == '-' then [] :: seg :: segs else (c :: seg) :: segs

/-- lastDashSegment: JS `s.split('-').pop()` — the text after the last dash
(the whole string when it has no dash). -/
def lastDashSegment (s : String) : String :=
  ⟨(splitDash s.data).getLastD []⟩

/-- strEndsWith: JS / Prisma `endsWith`. -/
def strEndsWith (s suff : String) : Bool :=
  List.isSuffixOf suff.data s.data

/-- strContainsDash: JS `s.includes('-')`. -/
def strContainsDash (s : String) : Bool :=
  s.data.contains '-'

/-- charsToNat: decimal digits to a number, as JS `Number` on a digit string. -/
def charsToNat (cs : List Char) : Nat :=
  cs.foldl (fun acc c => acc * 10 + (c.toNat - '0'.toNat)) 0

/-- parseBillingPeriod: the `billingPeriod.split('-')` destructuring into
(year, month) used to build the month window. -/
def parseBillingPeriod (bp : String) : Nat × Nat :=
  match splitDash bp.data with
  | y :: m :: _ => (charsToNat y, charsToNat m)
  | [y] => (charsToNat y, 0)
  | [] => (0, 0)

/-- monthStartDay: civil day of `new Date(year, month - 1, 1)`. -/
def monthStartDay (y m : Nat) : Nat :=
  daysFromCivil y m 1

/-- monthEndDay: civil day of `new Date(year, month, 1)`; JS rolls month 12
over to January of the next year. -/
def monthEndDay (y m : Nat) : Nat :=
  if m = 12 then daysFromCivil (y + 1) 1 1 else daysFromCivil y (m + 1) 1

/-! ## Payments ledger data model

The `payments_ledger` and `move_approvals` tables (PaymentRecord and
ApprovalLink of the data model), and the combined database state the
reconciliation components read and write. -/

/-- A payments_ledger row. The row id is modelled by the (unique) external
invoice id, which no verified component distinguishes from it. -/
structure PaymentRecord where
  id : String
  clientId : String
  invoiceId : String
  billingPeriod : String
  feeType : String
  unit : Option String
  paidAt : Int
  dismissed : Bool
  dismissedReason : Option String
  dismissedAt : Option Int
deriving DecidableEq, Repr

/-- A move_approvals row — the ApprovalLink relating a payment to the booking
it approved. -/
structure MoveApproval where
  moveRequestId : String
  clientId : String
  invoiceId : String
  billingPeriod : String
deriving DecidableEq, Repr

/-- The entity store the reconciliation engine runs against. -/
structure DBState where
  bookings : List Booking
  payments : List PaymentRecord
  approvals : List MoveApproval
deriving DecidableEq, Repr

/-! ## Payment matcher — `backend/src/services/moveApprovalService.ts` -/

/-- The move_approvals rows related to a ledger record (the relation is keyed
by the external invoice id). -/
def approvalsForInvoice (approvals : List MoveApproval) (invoiceId : String) :
    List MoveApproval :=
  approvals.filter fun a => decide (a.invoiceId = invoiceId)

/-- The where-clause of the `paymentsLedger.findFirst` in
checkAndApproveMoveRequest: unit equal to the given unit or ending in
`-unit`, matching fee type, no related approval, not dismissed. -/
def paymentMatchCond (approvals : List MoveApproval) (unit feeType : String)
    (p : PaymentRecord) : Bool :=
  (match p.unit with
    | some u => decide (u = unit) || strEndsWith u ("-" ++ unit)
    | none => false) &&
  decide (p.feeType = feeType) &&
  (approvalsForInvoice approvals p.invoiceId).isEmpty &&
  !p.dismissed

/-- The read-and-guard phase of checkAndApproveMoveRequest, everything the
source runs before `prisma.$transaction`: the unknown-fee-type early return,
the ledger search, the duplicate-approval check, and the booking status
check. Returns the payment the transaction will link, or `none` when any
guard fails. -/
def checkAndApprovePhase1 (st : DBState) (unit feeType bookingId : String) :
    Option PaymentRecord :=
  if feeType = "unknown" then none
  else
    match st.payments.find? (paymentMatchCond st.approvals unit feeType) with
    | none => none
    | some payment =>
      if ¬ (approvalsForInvoice st.approvals payment.invoiceId).isEmpty then none
      else
        match st.bookings.find? (fun b => decide (b.id = bookingId)) with
        | none => none
        | some booking =>
          if booking.status = .SUBMITTED ∨ booking.status = .PENDING then some payment
          else none

/-- The `prisma.$transaction([moveApproval.create, booking.update])` batch of
checkAndApproveMoveRequest, as a function of the state it commits against:
appends the ApprovalLink and sets the booking APPROVED with approvedAt (the
update's where-clause is the id alone — it carries no status guard). -/
def approvalTransaction (st : DBState) (bookingId : String) (payment : PaymentRecord)
    (billingPeriod : String) (now : Int) : DBState :=
  { st with
    approvals := st.approvals ++
      [⟨bookingId, payment.clientId, payment.invoiceId, billingPeriod⟩],
    bookings := st.bookings.map fun b =>
      if b.id = bookingId then { b with status := .APPROVED, approvedAt := some now }
      else b }

/-- Result shape `{ approved, invoiceId? }` of checkAndApproveMoveRequest. -/
structure ApproveResult where
  approved : Bool
  invoiceId : Option String
deriving DecidableEq, Repr

/-- checkAndApproveMoveRequest run without interleaving: the guard phase
followed immediately by the transaction. -/
def checkAndApproveMoveRequest (st : DBState) (unit feeType billingPeriod bookingId : String)
    (now : Int) : DBState × ApproveResult :=
  match checkAndApprovePhase1 st unit feeType bookingId with
  | none => (st, ⟨false, none⟩)
  | some payment =>
    (approvalTransaction st bookingId payment billingPeriod now,
     ⟨true, some payment.invoiceId⟩)

/-! ## Retry-match sweep — admin payments-ledger route -/

/-- The unit variants tried against booking units: the payment's unit, plus
its suffix after the last dash when it contains one ("T4-1105" → "1105"). -/
def unitVariants (unit : String) : List String :=
  if strContainsDash unit then [unit, lastDashSegment unit] else [unit]

/-- Booking type derived from fee type: move_in → MOVE_IN, else MOVE_OUT. -/
def feeTypeToMoveType (feeType : String) : MoveType :=
  if feeType = "move_in" then .MOVE_IN else .MOVE_OUT

/-- The `booking.findFirst` of the retry-match sweep: unit among the
payment's variants, derived type, status SUBMITTED/PENDING/APPROVED. -/
def retryBookingMatch (bookings : List Booking) (pUnit feeType : String) :
    Option Booking :=
  bookings.find? fun b =>
    decide (b.unit ∈ unitVariants pUnit) &&
    decide (b.moveType = feeTypeToMoveType feeType) &&
    decide (b.status ∈ ([.SUBMITTED, .PENDING, .APPROVED] : List BookingStatus))

/-- One iteration of the retry-match loop for one ledger record: find a
booking, skip if the invoice already has an approval, otherwise create the
ApprovalLink and — unless the booking is already APPROVED — approve it.
Returns the new state and whether this record counted as matched. -/
def retryMatchStep (now : Int) (st : DBState) (payment : PaymentRecord) :
    DBState × Bool :=
  match retryBookingMatch st.bookings (payment.unit.getD "") payment.feeType with
  | none => (st, false)
  | some booking =>
    if ¬ (approvalsForInvoice st.approvals payment.invoiceId).isEmpty then (st, false)
    else if ¬ booking.status = .APPROVED then
      ({ st with
          approvals := st.approvals ++
            [⟨booking.id, payment.clientId, payment.invoiceId, payment.billingPeriod⟩],
          bookings := st.bookings.map fun b =>
            if b.id = booking.id then
              { b with status := .APPROVED, approvedAt := some now }
            else b },
       true)
    else
      ({ st with approvals := st.approvals ++
          [⟨booking.id, payment.clientId, payment.invoiceId, payment.billingPeriod⟩] },
       true)

/-- The `paymentsLedger.findMany` opening the retry-match sweep: unmatched,
not dismissed, classified, with a unit. -/
def unmatchedLedgerQuery (st : DBState) : List PaymentRecord :=
  st.payments.filter fun p =>
    (approvalsForInvoice st.approvals p.invoiceId).isEmpty &&
    !p.dismissed && decide (¬ p.feeType = "unknown") && p.unit.isSome

/-- The full retry-match sweep: the unmatched list is read once up front,
then each record is processed against the current state; returns the state
and the matched count. -/
def retryMatch (st : DBState) (now : Int) : DBState × Nat :=
  (unmatchedLedgerQuery st).foldl
    (fun acc payment =>
      let next := retryMatchStep now acc.1 payment
      (next.1, if next.2 then acc.2 + 1 else acc.2))
    (st, 0)

/-! ## Scheduled poll and webhook ingestion

`processInvoice` of the Invoice Ninja poller and the webhook route, entered
after extraction/classification: `invoiceId`, `clientId`, `billingPeriod`,
`feeType` and the extracted `unit` are the already-computed values the
source derives from the raw event. -/

/-- The moveDate month window filter (`gte` month start, `lt` next month). -/
def bookingMonthFilter (billingPeriod : String) (b : Booking) : Bool :=
  let ym := parseBillingPeriod billingPeriod
  decide (monthStartDay ym.1 ym.2 ≤ b.moveDate ∧ b.moveDate < monthEndDay ym.1 ym.2)

/-- The `booking.findFirst` of processInvoice: unit among the payment's
variants, derived type, moveDate in the billing month, status
SUBMITTED/PENDING. -/
def pollBookingMatch (bookings : List Booking) (pUnit feeType billingPeriod : String) :
    Option Booking :=
  bookings.find? fun b =>
    decide (b.unit ∈ unitVariants pUnit) &&
    decide (b.moveType = feeTypeToMoveType feeType) &&
    bookingMonthFilter billingPeriod b &&
    decide (b.status ∈ ([.SUBMITTED, .PENDING] : List BookingStatus))

/-- The ledger row created for a newly seen invoice (`paymentsLedger.create`
data; the dismissal columns start at their database defaults). -/
def newLedgerRecord (clientId invoiceId billingPeriod feeType : String)
    (unit : Option String) (paidAt : Int) : PaymentRecord :=
  { id := invoiceId, clientId, invoiceId, billingPeriod, feeType, unit, paidAt,
    dismissed := false, dismissedReason := none, dismissedAt := none }

/-- The `if (feeType !== 'unknown' && unit)` tail of processInvoice: when the
record is classified and carries a unit, find a booking and hand it to
checkAndApproveMoveRequest. -/
def pollTryMatch (st1 : DBState) (feeType billingPeriod : String)
    (unit : Option String) (now : Int) : DBState :=
  match unit with
  | some u =>
    if ¬ feeType = "unknown" then
      match pollBookingMatch st1.bookings u feeType billingPeriod with
      | some mb => (checkAndApproveMoveRequest st1 u feeType billingPeriod mb.id now).1
      | none => st1
    else st1
  | none => st1

/-- processInvoice: skip entirely when the invoice is already recorded;
otherwise create the ledger row and try the booking match. -/
def processInvoice (st : DBState) (clientId invoiceId billingPeriod feeType : String)
    (unit : Option String) (paidAt now : Int) : DBState :=
  if st.payments.any (fun p => decide (p.invoiceId = invoiceId)) then st
  else
    pollTryMatch
      { st with payments := st.payments ++
          [newLedgerRecord clientId invoiceId billingPeriod feeType unit paidAt] }
      feeType billingPeriod unit now

/-- The `booking.findFirst` of the webhook route: exact unit (no variants),
derived type, moveDate in the billing month, status SUBMITTED/PENDING. -/
def webhookBookingMatch (bookings : List Booking) (pUnit feeType billingPeriod : String) :
    Option Booking :=
  bookings.find? fun b =>
    decide (b.unit = pUnit) &&
    decide (b.moveType = feeTypeToMoveType feeType) &&
    bookingMonthFilter billingPeriod b &&
    decide (b.status ∈ ([.SUBMITTED, .PENDING] : List BookingStatus))

/-- The `paymentsLedger.upsert` of the webhook route, keyed by the unique
invoice id: create when absent; `update: {}` leaves an existing row
untouched. -/
def upsertPaymentRecord (st : DBState) (clientId invoiceId billingPeriod feeType : String)
    (unit : Option String) (paidAt : Int) : DBState :=
  if st.payments.any (fun p => decide (p.invoiceId = invoiceId)) then st
  else { st with payments := st.payments ++
      [newLedgerRecord clientId invoiceId billingPeriod feeType unit paidAt] }

/-- The immediate-match tail of the webhook route. -/
def webhookTryMatch (st1 : DBState) (feeType billingPeriod : String)
    (unit : Option String) (now : Int) : DBState :=
  match unit with
  | some u =>
    if ¬ feeType = "unknown" then
      match webhookBookingMatch st1.bookings u feeType billingPeriod with
      | some mb => (checkAndApproveMoveRequest st1 u feeType billingPeriod mb.id now).1
      | none => st1
    else st1
  | none => st1

/-- The Invoice Ninja webhook handler after payload extraction: the
idempotent ledger upsert, then the immediate booking match. -/
def invoiceNinjaWebhook (st : DBState) (clientId invoiceId billingPeriod feeType : String)
    (unit : Option String) (paidAt now : Int) : DBState :=
  webhookTryMatch
    (upsertPaymentRecord st clientId invoiceId billingPeriod feeType unit paidAt)
    feeType billingPeriod unit now

/-- The dismiss route: set the dismissal fields of the addressed record. -/
def dismissRecord (st : DBState) (recordId reason : String) (now : Int) : DBState :=
  { st with payments := st.payments.map fun p =>
      if p.id = recordId then
        { p with dismissed := true, dismissedReason := some reason,
                 dismissedAt := some now }
      else p }

/-- The restore route: clear the dismissal fields of the addressed record. -/
def restoreRecord (st : DBState) (recordId : String) : DBState :=
  { st with payments := st.payments.map fun p =>
      if p.id = recordId then
        { p with dismissed := false, dismissedReason := none, dismissedAt := none }
      else p }

/-! ## Auto-approval sweep — `backend/src/services/autoApprovalService.ts` -/

/-- The 24-hour auto-approval threshold, in minutes. -/
def AUTO_APPROVE_MINUTES : Int := 24 * 60

/-- The per-booking effect of one sweep: a SUBMITTED booking created before
the cutoff is set APPROVED, attributed to the system user with approvedAt
now — unless its individual `booking.update` fails (`updateFails`, the
per-item try/catch of the source), in which case the row is untouched. Any
other booking is outside the sweep's query and untouched. -/
def autoApprovalStep (systemUser : User) (now : Int) (updateFails : String → Bool)
    (b : Booking) : Booking :=
  if b.status = .SUBMITTED ∧ b.createdAt < now - AUTO_APPROVE_MINUTES ∧
      updateFails b.id = false then
    { b with status := .APPROVED, approvedById := some systemUser.id,
             approvedAt := some now }
  else b

/-- runAutoApproval: resolve the system actor (first CONCIERGE user; no-op
when absent), then apply the sweep to every booking row. The source selects
`status SUBMITTED ∧ createdAt < cutoff` and updates each selected row by its
unique id; over a table with unique ids that is the per-row map embedded
here. -/
def runAutoApproval (users : List User) (now : Int) (updateFails : String → Bool)
    (db : List Booking) : List Booking :=
  match users.find? (fun u => decide (u.role = .CONCIERGE)) with
  | none => db
  | some su => db.map (autoApprovalStep su now updateFails)

/-! ## Public bookings view — public routes -/

/-- The row shape `/api/public/bookings` returns: the selected columns with
`unit` replaced by `publicUnitMask ?? unit`. -/
structure PublicBookingRow where
  id : String
  moveType : MoveType
  startDatetime : Timestamp
  endDatetime : Timestamp
  moveDate : Nat
  unit : String
  publicUnitMask : Option String
deriving DecidableEq, Repr

/-- The `/api/public/bookings` handler: APPROVED bookings ordered by start
time, each masked. -/
def publicBookings (db : List Booking) : List PublicBookingRow :=
  (((db.filter fun b => decide (b.status = .APPROVED)).mergeSort
      fun a b => decide (toMins a.startDatetime ≤ toMins b.startDatetime)).map fun b =>
    { id := b.id, moveType := b.moveType, startDatetime := b.startDatetime,
      endDatetime := b.endDatetime, moveDate := b.moveDate,
      unit := b.publicUnitMask.getD b.unit, publicUnitMask := b.publicUnitMask })

/-! ## Derived invariant vocabulary -/

/-- Number of ApprovalLinks recorded for an external invoice id. -/
def linkCount (approvals : List MoveApproval) (iv : String) : Nat :=
  (approvalsForInvoice approvals iv).length

/-- The ApprovalLink invoice-uniqueness invariant: at most one link per
external invoice id. -/
def AtMostOneLinkPerInvoice (st : DBState) : Prop :=
  ∀ iv, linkCount st.approvals iv ≤ 1

/-- The ledger key invariant: at most one PaymentRecord per external invoice
id (two records sharing an invoice id coincide). -/
def PaymentsInvoiceUnique (ps : List PaymentRecord) : Prop :=
  ∀ p ∈ ps, ∀ q ∈ ps, p.invoiceId = q.invoiceId → p = q

/-- Number of weekday slots fully containing [startMins, endMins]. -/
def weekdaySlotCount (startMins endMins : Nat) : Nat :=
  (WEEKDAY_SLOTS.filter fun se => decide (se.1 ≤ startMins ∧ endMins ≤ se.2)).length

/-! ## Concrete fixtures for witnesses and counterexamples -/

/-- Monday 2025-06-02 — an ordinary non-holiday weekday. -/
def exampleDay : Nat := daysFromCivil 2025 6 2

/-- An existing elevator booking 10:00–11:00 on the example day. -/
def bookingTenToEleven : Booking :=
  { id := "a", unit := "101", publicUnitMask := none, moveType := .MOVE_IN,
    moveDate := exampleDay, startDatetime := ⟨exampleDay, 600⟩,
    endDatetime := ⟨exampleDay, 660⟩, elevatorRequired := true,
    loadingBayRequired := false, status := .SUBMITTED, createdAt := 0,
    approvedById := none, approvedAt := none }

/-- Elevator candidate 11:30–12:00 on the example day (gap 30 min). -/
def candElevenThirty : ConflictCandidate :=
  ⟨none, ⟨exampleDay, 690⟩, ⟨exampleDay, 720⟩, true⟩

/-- Elevator candidate 12:30–13:30 on the example day (gap 90 min). -/
def candTwelveThirty : ConflictCandidate :=
  ⟨none, ⟨exampleDay, 750⟩, ⟨exampleDay, 810⟩, true⟩

/-- A paid move-in ledger record with extracted unit "1105". -/
def pmt1105 : PaymentRecord :=
  { id := "inv1", clientId := "c1", invoiceId := "inv1", billingPeriod := "2025-06",
    feeType := "move_in", unit := some "1105", paidAt := 0, dismissed := false,
    dismissedReason := none, dismissedAt := none }

/-- A paid move-in ledger record with extracted unit "T4-1105". -/
def pmtT4 : PaymentRecord :=
  { pmt1105 with id := "inv2", invoiceId := "inv2", unit := some "T4-1105" }

/-- A SUBMITTED MOVE_IN booking for unit "1105" in June 2025. -/
def bkg1105 : Booking :=
  { id := "b1", unit := "1105", publicUnitMask := none, moveType := .MOVE_IN,
    moveDate := exampleDay, startDatetime := ⟨exampleDay, 600⟩,
    endDatetime := ⟨exampleDay, 780⟩, elevatorRequired := true,
    loadingBayRequired := false, status := .SUBMITTED, createdAt := 0,
    approvedById := none, approvedAt := none }

/-- The same booking but for the building-prefixed unit "T4-1105". -/
def bkgT4 : Booking := { bkg1105 with id := "b2", unit := "T4-1105" }

/-- State before the matcher runs: one matching booking, one ledger record. -/
def stReady : DBState := ⟨[bkg1105], [pmt1105], []⟩

/-- bkg1105 after an interleaved manual approval by an admin at minute 500. -/
def bkg1105Manual : Booking :=
  { bkg1105 with status := .APPROVED, approvedById := some "admin",
                 approvedAt := some 500 }

/-- State at commit time after the interleaved manual approval. -/
def stManual : DBState := ⟨[bkg1105Manual], [pmt1105], []⟩

/-- pmt1105 dismissed by an operator. -/
def pmtDismissed : PaymentRecord :=
  { pmt1105 with dismissed := true, dismissedReason := some "duplicate",
                 dismissedAt := some 700 }

/-- State whose only ledger record is dismissed, next to a booking that would
otherwise match it. -/
def stDismissed : DBState := ⟨[bkg1105], [pmtDismissed], []⟩

/-- pmtDismissed after the restore route clears its dismissal fields. -/
def pmtRestored : PaymentRecord :=
  { pmtDismissed with dismissed := false, dismissedReason := none,
                      dismissedAt := none }

/-- The designated system actor fixture. -/
def sysUser : User := ⟨"sys", .CONCIERGE⟩

/-- A SUBMITTED booking created at minute 0 (old enough to auto-approve at
`now = 100000`). -/
def staleBooking : Booking := bkg1105

/-- An APPROVED booking carrying a public display mask. -/
def maskedBooking : Booking :=
  { bkg1105 with id := "b3", status := .APPROVED, publicUnitMask := some "PH1",
                 approvedAt := some 100 }

/-- The public view row the endpoint produces for `maskedBooking`. -/
def maskedRow : PublicBookingRow :=
  { id := "b3", moveType := .MOVE_IN, startDatetime := ⟨exampleDay, 600⟩,
    endDatetime := ⟨exampleDay, 780⟩, moveDate := exampleDay, unit := "PH1",
    publicUnitMask := some "PH1" }

/-! ## Theorems -/

/-- C1: for every elevator-required candidate interval and every list of
existing bookings, the conflict decision taken inside assertNoConflict
reports a conflict iff some existing booking with elevator-required true and
status among SUBMITTED/PENDING/APPROVED satisfies candidateStart − 60min <
existingEnd and candidateEnd + 60min > existingStart; in particular, on one
day the elevator bookings 10:00–11:00 and 11:30–12:00 conflict (30-minute
gap) while 10:00–11:00 and 12:30–13:30 do not (90-minute gap). -/
theorem elevator_conflict_characterization :
    (∀ (db : List Booking) (cand : ConflictCandidate),
      cand.id = none → cand.elevatorRequired = true →
      (detectsElevatorConflict db cand = true ↔
        ∃ b ∈ db, b.elevatorRequired = true ∧ b.status ∈ activeStatuses ∧
          toMinsZ cand.startDatetime - 60 < toMinsZ b.endDatetime ∧
          toMinsZ cand.endDatetime + 60 > toMinsZ b.startDatetime)) ∧
    detectsElevatorConflict [bookingTenToEleven] candElevenThirty = true ∧
    detectsElevatorConflict [bookingTenToEleven] candTwelveThirty = false := by
  refine ⟨?_, by decide, by decide⟩
  intro db cand hid helev
  simp only [detectsElevatorConflict, hasElevatorConflict, conflictQuery, hid, helev,
    BUFFER_MINUTES, not_true_eq_false, if_false, List.any_eq_true, List.mem_map,
    List.mem_filter, Bool.and_eq_true, decide_eq_true_eq]
  constructor
  · rintro ⟨slot, ⟨b, ⟨hb, hcond⟩, rfl⟩, hpred⟩
    exact ⟨b, hb, hpred.1.1, hcond.1.1.1.2, hpred.1.2, hpred.2⟩
  · rintro ⟨b, hb, hel, hst, h1, h2⟩
    refine ⟨⟨b.startDatetime, b.endDatetime, b.elevatorRequired⟩,
      ⟨b, ⟨hb, ⟨⟨⟨hel, hst⟩, trivial⟩, le_of_lt h2⟩, le_of_lt h1⟩, rfl⟩, ⟨hel, h1⟩, h2⟩

/-- C1 witness: the characterization applied to the concrete 11:30–12:00
candidate against the 10:00–11:00 booking. -/
theorem elevator_conflict_characterization_witness :
    detectsElevatorConflict [bookingTenToEleven] candElevenThirty = true ↔
      ∃ b ∈ [bookingTenToEleven], b.elevatorRequired = true ∧
        b.status ∈ activeStatuses ∧
        toMinsZ candElevenThirty.startDatetime - 60 < toMinsZ b.endDatetime ∧
        toMinsZ candElevenThirty.endDatetime + 60 > toMinsZ b.startDatetime :=
  elevator_conflict_characterization.1 [bookingTenToEleven] candElevenThirty
    (by decide) (by decide)

/-- C2: a candidate whose start lies before 08:00 or whose end lies after
17:00 makes assertNoConflict raise an error, for every database and
regardless of allowOverride: the hours sanity check runs first and does not
consult the override flag (assertNoConflict takes no booking type at all). -/
theorem hours_sanity_always_rejects (db : List Booking) (cand : ConflictCandidate)
    (allowOverride : Bool)
    (h : cand.startDatetime.mins < 8 * 60 ∨ 17 * 60 < cand.endDatetime.mins) :
    ∃ msg, assertNoConflict db cand allowOverride = .error msg := by
  by_cases hlt : toMins cand.startDatetime < toMins cand.endDatetime
  · have hcond : cand.startDatetime.mins / 60 < MOVE_START_HOUR ∨
        cand.endDatetime.mins / 60 > MOVE_END_HOUR ∨
        (cand.endDatetime.mins / 60 = MOVE_END_HOUR ∧ cand.endDatetime.mins % 60 > 0) := by
      unfold MOVE_START_HOUR MOVE_END_HOUR
      omega
    have hvm : validateMoveHours cand.startDatetime cand.endDatetime =
        .error "Booking must be within permitted move hours (8:00 AM – 5:00 PM)" := by
      unfold validateMoveHours
      rw [if_neg (not_not_intro hlt), if_pos hcond]
    have hres : assertNoConflict db cand allowOverride =
        .error "Booking must be within permitted move hours (8:00 AM – 5:00 PM)" := by
      simp [assertNoConflict, hvm]
    exact ⟨_, hres⟩
  · have hvm : validateMoveHours cand.startDatetime cand.endDatetime =
        .error "End time must be after start time" := by
      unfold validateMoveHours
      rw [if_pos hlt]
    have hres : assertNoConflict db cand allowOverride =
        .error "End time must be after start time" := by
      simp [assertNoConflict, hvm]
    exact ⟨_, hres⟩

/-- C2 witness: a 7:00–9:00 candidate is rejected even with allowOverride
true and an empty database. -/
theorem hours_sanity_always_rejects_witness :
    ∃ msg, assertNoConflict []
      ⟨none, ⟨daysFromCivil 2025 6 2, 7 * 60⟩, ⟨daysFromCivil 2025 6 2, 9 * 60⟩, true⟩
      true = .error msg :=
  hours_sanity_always_rejects _ _ _ (Or.inl (by decide))

/-- C7: for every candidate interval (start before end, both on the same
day) whose date is in the statutory-holiday calendar, validateMoveTime
returns the holiday rejection, whatever the booking type. -/
theorem holiday_rejection (start stop : Timestamp) (mt : Option String)
    (h1 : toMins start < toMins stop) (h2 : start.day = stop.day)
    (h3 : start.day ∈ holidayDays) :
    validateMoveTime start stop mt =
      ⟨false, some "Bookings are not permitted on statutory holidays"⟩ := by
  have hc : holidayDays.contains start.day = true :=
    List.elem_eq_true_of_mem h3
  unfold validateMoveTime
  rw [if_neg (not_not_intro h1), if_neg (not_not_intro h2), if_pos hc]

/-- C7 witness: Christmas Day 2025, 10:00–13:00, for a MOVE_IN. -/
theorem holiday_rejection_witness :
    validateMoveTime ⟨daysFromCivil 2025 12 25, 600⟩ ⟨daysFromCivil 2025 12 25, 780⟩
      (some "MOVE_IN") =
      ⟨false, some "Bookings are not permitted on statutory holidays"⟩ :=
  holiday_rejection _ _ _ (by decide) rfl (by decide)

/-- On a non-holiday weekday, validateMoveTime for a MOVE_IN/MOVE_OUT (or any
type other than DELIVERY and RENO) reduces to the weekday slot test. -/
theorem validateMoveTime_weekday (start stop : Timestamp) (mt : Option String)
    (hmt : mt = some "MOVE_IN" ∨ mt = some "MOVE_OUT")
    (h1 : toMins start < toMins stop) (h2 : start.day = stop.day)
    (h3 : ¬ start.day ∈ holidayDays)
    (h4 : 1 ≤ dayOfWeek start.day) (h5 : dayOfWeek start.day ≤ 5) :
    validateMoveTime start stop mt =
      if fitsInSlot start.mins stop.mins WEEKDAY_SLOTS then ⟨true, none⟩
      else ⟨false,
        some "Weekday moves must fit within one permitted slot: 10am–1pm or 1pm–4pm"⟩ := by
  have hc : holidayDays.contains start.day = false := by
    cases hcc : holidayDays.contains start.day
    · rfl
    · exact absurd (List.mem_of_elem_eq_true hcc) h3
  have hw0 : (dayOfWeek start.day == 0) = false := by
    simp only [beq_eq_false_iff_ne, ne_eq]
    omega
  have hw6 : (dayOfWeek start.day == 6) = false := by
    simp only [beq_eq_false_iff_ne, ne_eq]
    omega
  rcases hmt with rfl | rfl <;>
  · unfold validateMoveTime
    rw [if_neg (not_not_intro h1), if_neg (not_not_intro h2),
      if_neg (by rw [hc]; exact Bool.false_ne_true)]
    simp only [hw0, hw6, Bool.or_self, if_false, if_pos (And.intro h4 h5)]
    simp
    cases fitsInSlot start.mins stop.mins WEEKDAY_SLOTS <;> simp

/-- A nondegenerate interval fits some weekday slot iff it is contained in
exactly one of them (the two windows only share the boundary point 13:00). -/
theorem fits_iff_exactly_one_weekday_slot (s e : Nat) (hse : s < e) :
    fitsInSlot s e WEEKDAY_SLOTS = true ↔ weekdaySlotCount s e = 1 := by
  unfold fitsInSlot weekdaySlotCount WEEKDAY_SLOTS
  by_cases hA : 10 * 60 ≤ s ∧ e ≤ 13 * 60 <;> by_cases hB : 13 * 60 ≤ s ∧ e ≤ 16 * 60
  · exfalso; omega
  all_goals simp [hA, hB, List.filter]

/-- C8 counterexample: 2025-01-01 is a Wednesday (weekday) and 10:00–13:00
is fully contained in the first weekday window, yet validateMoveTime rejects
the MOVE_IN candidate — the claimed iff fails on a weekday that is a
statutory holiday. -/
theorem weekday_slots_iff_fails_on_holiday :
    1 ≤ dayOfWeek (daysFromCivil 2025 1 1) ∧ dayOfWeek (daysFromCivil 2025 1 1) ≤ 5 ∧
    fitsInSlot 600 780 WEEKDAY_SLOTS = true ∧
    (validateMoveTime ⟨daysFromCivil 2025 1 1, 600⟩ ⟨daysFromCivil 2025 1 1, 780⟩
      (some "MOVE_IN")).valid = false := by
  decide

/-- C8 as amended: for every MOVE_IN or MOVE_OUT candidate on a non-holiday
weekday (start before end, same day), validateMoveTime accepts iff the
interval is fully contained in exactly one of the two windows 10:00–13:00
and 13:00–16:00; and the window-crossing candidate 12:30–14:30 on the same
day is rejected. -/
theorem nonholiday_weekday_move_slots (start stop : Timestamp) (mt : Option String)
    (hmt : mt = some "MOVE_IN" ∨ mt = some "MOVE_OUT")
    (h1 : toMins start < toMins stop) (h2 : start.day = stop.day)
    (h3 : ¬ start.day ∈ holidayDays)
    (h4 : 1 ≤ dayOfWeek start.day) (h5 : dayOfWeek start.day ≤ 5) :
    ((validateMoveTime start stop mt).valid = true ↔
      weekdaySlotCount start.mins stop.mins = 1) ∧
    (validateMoveTime ⟨start.day, 750⟩ ⟨start.day, 870⟩ mt).valid = false := by
  have hmins : start.mins < stop.mins := by
    unfold toMins at h1
    omega
  constructor
  · rw [validateMoveTime_weekday start stop mt hmt h1 h2 h3 h4 h5,
      ← fits_iff_exactly_one_weekday_slot start.mins stop.mins hmins]
    cases hf : fitsInSlot start.mins stop.mins WEEKDAY_SLOTS <;> simp [hf]
  · rw [validateMoveTime_weekday ⟨start.day, 750⟩ ⟨start.day, 870⟩ mt hmt
      (by simp [toMins]) rfl h3 h4 h5]
    simp [(by decide : fitsInSlot 750 870 WEEKDAY_SLOTS = false)]

/-- C8 witness: the amended iff applied on Monday 2025-06-02 at 10:00–13:00. -/
theorem nonholiday_weekday_move_slots_witness :
    ((validateMoveTime ⟨exampleDay, 600⟩ ⟨exampleDay, 780⟩ (some "MOVE_IN")).valid = true ↔
      weekdaySlotCount 600 780 = 1) ∧
    (validateMoveTime ⟨exampleDay, 750⟩ ⟨exampleDay, 870⟩ (some "MOVE_IN")).valid = false :=
  nonholiday_weekday_move_slots ⟨exampleDay, 600⟩ ⟨exampleDay, 780⟩ (some "MOVE_IN")
    (Or.inl rfl) (by decide) rfl (by decide) (by decide) (by decide)

/-- C9: each auto-approval sweep is the per-row map of autoApprovalStep over
the bookings table (so one row's failing update cannot abort the rest); a
SUBMITTED booking older than 24 hours whose update does not fail comes out
APPROVED, attributed to the system actor with approver and timestamp set; a
SUBMITTED booking younger than 24 hours comes out unchanged. -/
theorem auto_approval_sweep (users : List User) (su : User) (now : Int)
    (updateFails : String → Bool) (db : List Booking) (b : Booking)
    (hsu : users.find? (fun u => decide (u.role = .CONCIERGE)) = some su)
    (hb : b ∈ db) :
    runAutoApproval users now updateFails db =
      db.map (autoApprovalStep su now updateFails) ∧
    (b.status = .SUBMITTED → b.createdAt < now - AUTO_APPROVE_MINUTES →
      updateFails b.id = false →
      autoApprovalStep su now updateFails b =
        { b with status := .APPROVED, approvedById := some su.id,
                 approvedAt := some now }) ∧
    (b.status = .SUBMITTED → ¬ b.createdAt < now - AUTO_APPROVE_MINUTES →
      autoApprovalStep su now updateFails b = b) ∧
    autoApprovalStep su now updateFails b ∈ runAutoApproval users now updateFails db := by
  have hmap : runAutoApproval users now updateFails db =
      db.map (autoApprovalStep su now updateFails) := by
    unfold runAutoApproval
    rw [hsu]
  refine ⟨hmap, ?_, ?_, ?_⟩
  · intro h1 h2 h3
    unfold autoApprovalStep
    rw [if_pos ⟨h1, h2, h3⟩]
  · intro h1 h2
    unfold autoApprovalStep
    rw [if_neg (fun hcon => h2 hcon.2.1)]
  · rw [hmap]
    exact List.mem_map_of_mem _ hb

/-- C9 witness: a SUBMITTED booking created at minute 0 is approved by the
sweep at now = 100000 and attributed to the system concierge. -/
theorem auto_approval_sweep_witness :
    autoApprovalStep sysUser 100000 (fun _ => false) staleBooking =
      { staleBooking with status := .APPROVED, approvedById := some sysUser.id,
                          approvedAt := some 100000 } :=
  (auto_approval_sweep [sysUser] sysUser 100000 (fun _ => false) [staleBooking]
    staleBooking (by decide) (by decide)).2.1 (by decide) (by decide) rfl

/-- C10: every row the public bookings endpoint returns originates from an
APPROVED booking; its unit field is the booking's public-display mask when
one is set and the real unit only when no mask is set. -/
theorem public_bookings_approved_masked (db : List Booking) (row : PublicBookingRow)
    (hrow : row ∈ publicBookings db) :
    ∃ b ∈ db, b.status = .APPROVED ∧ row.id = b.id ∧
      (∀ m, b.publicUnitMask = some m → row.unit = m) ∧
      (b.publicUnitMask = none → row.unit = b.unit) := by
  unfold publicBookings at hrow
  rw [List.mem_map] at hrow
  obtain ⟨b, hbmem, rfl⟩ := hrow
  rw [(List.mergeSort_perm _ _).mem_iff, List.mem_filter] at hbmem
  obtain ⟨hbdb, hst⟩ := hbmem
  refine ⟨b, hbdb, by simpa using hst, rfl, ?_, ?_⟩
  · intro m hm
    simp [hm]
  · intro hm
    simp [hm]

/-- C10 witness: the masked APPROVED booking's row, from a table that also
holds a SUBMITTED booking. -/
theorem public_bookings_approved_masked_witness :
    ∃ b ∈ [bkg1105, maskedBooking], b.status = .APPROVED ∧ maskedRow.id = b.id ∧
      (∀ m, b.publicUnitMask = some m → maskedRow.unit = m) ∧
      (b.publicUnitMask = none → maskedRow.unit = b.unit) :=
  public_bookings_approved_masked [bkg1105, maskedBooking] maskedRow
    (List.mem_map.mpr ⟨maskedBooking,
      (List.mergeSort_perm _ _).mem_iff.mpr (by decide), by decide⟩)

/-- Inversion of the guard phase of checkAndApproveMoveRequest: when it hands
a payment to the transaction, that payment is a non-dismissed ledger row, no
approval exists yet for its invoice, and the addressed booking exists with
status SUBMITTED or PENDING — all verified against the pre-transaction
state. -/
theorem checkAndApprovePhase1_spec (st : DBState) (unit feeType bookingId : String)
    (payment : PaymentRecord)
    (h : checkAndApprovePhase1 st unit feeType bookingId = some payment) :
    payment ∈ st.payments ∧ payment.dismissed = false ∧
    (approvalsForInvoice st.approvals payment.invoiceId).isEmpty = true ∧
    ∃ b ∈ st.bookings, b.id = bookingId ∧
      (b.status = .SUBMITTED ∨ b.status = .PENDING) := by
  unfold checkAndApprovePhase1 at h
  by_cases hft : feeType = "unknown"
  · rw [if_pos hft] at h
    exact absurd h (by simp)
  · rw [if_neg hft] at h
    cases hfind : st.payments.find? (paymentMatchCond st.approvals unit feeType) with
    | none =>
      simp only [hfind] at h
      exact absurd h (by simp)
    | some p =>
      simp only [hfind] at h
      by_cases hl : ¬ (approvalsForInvoice st.approvals p.invoiceId).isEmpty = true
      · rw [if_pos hl] at h
        exact absurd h (by simp)
      · rw [if_neg hl] at h
        cases hfb : st.bookings.find? (fun b => decide (b.id = bookingId)) with
        | none =>
          simp only [hfb] at h
          exact absurd h (by simp)
        | some booking =>
          simp only [hfb] at h
          by_cases hstat : booking.status = .SUBMITTED ∨ booking.status = .PENDING
          · rw [if_pos hstat, Option.some.injEq] at h
            subst h
            have hmem := List.mem_of_find?_eq_some hfind
            have hcond := List.find?_some hfind
            have hbmem := List.mem_of_find?_eq_some hfb
            have hbid : booking.id = bookingId := by
              have := List.find?_some hfb
              simpa using this
            unfold paymentMatchCond at hcond
            simp only [Bool.and_eq_true, Bool.not_eq_true'] at hcond
            exact ⟨hmem, hcond.2, not_not.mp hl, booking, hbmem, hbid, hstat⟩
          · rw [if_neg hstat] at h
            exact absurd h (by simp)

/-- The matcher's transaction touches bookings and approvals only; the
payments table is unchanged. -/
theorem checkAndApprove_payments (st : DBState) (u f bp bid : String) (now : Int) :
    (checkAndApproveMoveRequest st u f bp bid now).1.payments = st.payments := by
  unfold checkAndApproveMoveRequest
  cases hp : checkAndApprovePhase1 st u f bid with
  | none => rfl
  | some payment => rfl

/-- C3 counterexample: against stReady the guard phase selects the payment;
with a manual approval interleaved before the commit (stManual: the booking
is already APPROVED, approvedAt = 500), the transaction batch still applies
— it creates the ApprovalLink and overwrites approvedAt — because the batch
carries no status re-verification. -/
theorem approval_txn_ignores_status_cex :
    checkAndApprovePhase1 stReady "1105" "move_in" "b1" = some pmt1105 ∧
    stManual.bookings.map (fun b => b.status) = [.APPROVED] ∧
    stManual.approvals = [] ∧
    (approvalTransaction stManual "b1" pmt1105 "2025-06" 900).approvals =
      [⟨"b1", "c1", "inv1", "2025-06"⟩] ∧
    (approvalTransaction stManual "b1" pmt1105 "2025-06" 900).bookings.map
      (fun b => b.approvedAt) = [some 900] := by
  decide

/-- C3 as amended: the ApprovalLink creation and the booking's transition to
APPROVED are one transaction batch, and the booking's status (SUBMITTED or
PENDING), the absence of a prior link for the invoice, and the payment's
live (non-dismissed) ledger row are all verified — but before the
transaction, not inside it; the transactional update itself is unconditional
on status. -/
theorem payment_match_check_precedes_txn (st : DBState)
    (unit feeType billingPeriod bookingId : String) (now : Int)
    (payment : PaymentRecord)
    (h : checkAndApprovePhase1 st unit feeType bookingId = some payment) :
    (∃ b ∈ st.bookings, b.id = bookingId ∧
      (b.status = .SUBMITTED ∨ b.status = .PENDING)) ∧
    (approvalsForInvoice st.approvals payment.invoiceId).isEmpty = true ∧
    checkAndApproveMoveRequest st unit feeType billingPeriod bookingId now =
      (approvalTransaction st bookingId payment billingPeriod now,
       ⟨true, some payment.invoiceId⟩) ∧
    (approvalTransaction st bookingId payment billingPeriod now).approvals =
      st.approvals ++ [⟨bookingId, payment.clientId, payment.invoiceId, billingPeriod⟩] ∧
    (∀ st' : DBState, ∀ b ∈ st'.bookings, b.id = bookingId →
      ∃ b' ∈ (approvalTransaction st' bookingId payment billingPeriod now).bookings,
        b' = { b with status := .APPROVED, approvedAt := some now }) := by
  have hspec := checkAndApprovePhase1_spec st unit feeType bookingId payment h
  refine ⟨hspec.2.2.2, hspec.2.2.1, ?_, rfl, ?_⟩
  · unfold checkAndApproveMoveRequest
    rw [h]
  · intro st' b hb hbid
    refine ⟨{ b with status := .APPROVED, approvedAt := some now }, ?_, rfl⟩
    unfold approvalTransaction
    simp only [List.mem_map]
    exact ⟨b, hb, by rw [if_pos hbid]⟩

/-- C3 witness: the guard-then-commit shape applied to the ready state. -/
theorem payment_match_check_precedes_txn_witness :
    checkAndApproveMoveRequest stReady "1105" "move_in" "2025-06" "b1" 900 =
      (approvalTransaction stReady "b1" pmt1105 "2025-06" 900,
       ⟨true, some pmt1105.invoiceId⟩) :=
  (payment_match_check_precedes_txn stReady "1105" "move_in" "2025-06" "b1" 900
    pmt1105 (by decide)).2.2.1

/-- Appending one link adds one to its invoice's count and nothing to any
other invoice's. -/
theorem linkCount_append_single (A : List MoveApproval) (l : MoveApproval) (iv : String) :
    linkCount (A ++ [l]) iv = linkCount A iv + (if l.invoiceId = iv then 1 else 0) := by
  unfold linkCount approvalsForInvoice
  rw [List.filter_append, List.length_append]
  by_cases h : l.invoiceId = iv <;> simp [h]

/-- The emptiness check the matcher runs is exactly "link count zero". -/
theorem isEmpty_linkCount_zero (A : List MoveApproval) (iv : String) :
    (approvalsForInvoice A iv).isEmpty = true ↔ linkCount A iv = 0 := by
  unfold linkCount
  simp [List.isEmpty_iff, List.length_eq_zero]

/-- checkAndApproveMoveRequest preserves at-most-one-link-per-invoice: it
creates a link only for an invoice it just verified had none. -/
theorem checkAndApprove_atMostOne (st : DBState) (u f bp bid : String) (now : Int)
    (hinv : AtMostOneLinkPerInvoice st) :
    AtMostOneLinkPerInvoice (checkAndApproveMoveRequest st u f bp bid now).1 := by
  unfold checkAndApproveMoveRequest
  cases hp : checkAndApprovePhase1 st u f bid with
  | none => exact hinv
  | some payment =>
    have hspec := checkAndApprovePhase1_spec st u f bid payment hp
    have hzero : linkCount st.approvals payment.invoiceId = 0 :=
      (isEmpty_linkCount_zero _ _).mp hspec.2.2.1
    intro iv
    show linkCount (st.approvals ++
      [⟨bid, payment.clientId, payment.invoiceId, bp⟩]) iv ≤ 1
    rw [linkCount_append_single]
    by_cases hiv : payment.invoiceId = iv
    · subst hiv
      rw [if_pos rfl]
      omega
    · rw [if_neg hiv]
      have := hinv iv
      omega

/-- One retry-match iteration either leaves the approvals untouched or, when
the invoice had no link, appends exactly one link carrying that payment's
invoice id. -/
theorem retryMatchStep_links (now : Int) (st0 : DBState) (p : PaymentRecord) :
    (retryMatchStep now st0 p).1.approvals = st0.approvals ∨
    ((approvalsForInvoice st0.approvals p.invoiceId).isEmpty = true ∧
      ∃ bid, (retryMatchStep now st0 p).1.approvals =
        st0.approvals ++ [⟨bid, p.clientId, p.invoiceId, p.billingPeriod⟩]) := by
  unfold retryMatchStep
  cases hb : retryBookingMatch st0.bookings (p.unit.getD "") p.feeType with
  | none => exact Or.inl rfl
  | some booking =>
    dsimp only
    by_cases hl : ¬ (approvalsForInvoice st0.approvals p.invoiceId).isEmpty = true
    · rw [if_pos hl]
      exact Or.inl rfl
    · rw [if_neg hl]
      refine Or.inr ⟨not_not.mp hl, booking.id, ?_⟩
      by_cases hap : ¬ booking.status = .APPROVED
      · rw [if_pos hap]
      · rw [if_neg hap]

/-- One retry-match iteration preserves at-most-one-link-per-invoice. -/
theorem retryMatchStep_atMostOne (now : Int) (st0 : DBState) (p : PaymentRecord)
    (hinv : AtMostOneLinkPerInvoice st0) :
    AtMostOneLinkPerInvoice (retryMatchStep now st0 p).1 := by
  rcases retryMatchStep_links now st0 p with heq | ⟨hemp, bid, heq⟩
  · intro iv
    rw [heq]
    exact hinv iv
  · intro iv
    rw [heq, linkCount_append_single]
    have hzero : linkCount st0.approvals p.invoiceId = 0 :=
      (isEmpty_linkCount_zero _ _).mp hemp
    by_cases hiv : p.invoiceId = iv
    · subst hiv
      rw [if_pos rfl]
      omega
    · rw [if_neg hiv]
      have := hinv iv
      omega

/-- The whole retry-match sweep preserves at-most-one-link-per-invoice. -/
theorem retryMatch_atMostOne (st : DBState) (now : Int)
    (hinv : AtMostOneLinkPerInvoice st) :
    AtMostOneLinkPerInvoice (retryMatch st now).1 := by
  unfold retryMatch
  suffices h : ∀ (ps : List PaymentRecord) (acc : DBState × Nat),
      AtMostOneLinkPerInvoice acc.1 →
      AtMostOneLinkPerInvoice ((ps.foldl (fun acc payment =>
        let next := retryMatchStep now acc.1 payment
        (next.1, if next.2 then acc.2 + 1 else acc.2)) acc)).1 from
    h _ (st, 0) hinv
  intro ps
  induction ps with
  | nil => exact fun acc hacc => hacc
  | cons p ps ih =>
    intro acc hacc
    exact ih _ (retryMatchStep_atMostOne now acc.1 p hacc)

/-- The match tail of the poller changes no payments row. -/
theorem pollTryMatch_payments (st1 : DBState) (ft bp : String) (un : Option String)
    (now : Int) : (pollTryMatch st1 ft bp un now).payments = st1.payments := by
  unfold pollTryMatch
  cases un with
  | none => rfl
  | some u =>
    dsimp only
    by_cases hft : ¬ ft = "unknown"
    · rw [if_pos hft]
      cases hm : pollBookingMatch st1.bookings u ft bp with
      | none => rfl
      | some mb => exact checkAndApprove_payments st1 u ft bp mb.id now
    · rw [if_neg hft]

/-- The match tail of the webhook changes no payments row. -/
theorem webhookTryMatch_payments (st1 : DBState) (ft bp : String) (un : Option String)
    (now : Int) : (webhookTryMatch st1 ft bp un now).payments = st1.payments := by
  unfold webhookTryMatch
  cases un with
  | none => rfl
  | some u =>
    dsimp only
    by_cases hft : ¬ ft = "unknown"
    · rw [if_pos hft]
      cases hm : webhookBookingMatch st1.bookings u ft bp with
      | none => rfl
      | some mb => exact checkAndApprove_payments st1 u ft bp mb.id now
    · rw [if_neg hft]

/-- The match tail of the poller preserves at-most-one-link-per-invoice. -/
theorem pollTryMatch_atMostOne (st1 : DBState) (ft bp : String) (un : Option String)
    (now : Int) (hinv : AtMostOneLinkPerInvoice st1) :
    AtMostOneLinkPerInvoice (pollTryMatch st1 ft bp un now) := by
  unfold pollTryMatch
  cases un with
  | none => exact hinv
  | some u =>
    dsimp only
    by_cases hft : ¬ ft = "unknown"
    · rw [if_pos hft]
      cases hm : pollBookingMatch st1.bookings u ft bp with
      | none => exact hinv
      | some mb => exact checkAndApprove_atMostOne st1 u ft bp mb.id now hinv
    · rw [if_neg hft]
      exact hinv

/-- The match tail of the webhook preserves at-most-one-link-per-invoice. -/
theorem webhookTryMatch_atMostOne (st1 : DBState) (ft bp : String) (un : Option String)
    (now : Int) (hinv : AtMostOneLinkPerInvoice st1) :
    AtMostOneLinkPerInvoice (webhookTryMatch st1 ft bp un now) := by
  unfold webhookTryMatch
  cases un with
  | none => exact hinv
  | some u =>
    dsimp only
    by_cases hft : ¬ ft = "unknown"
    · rw [if_pos hft]
      cases hm : webhookBookingMatch st1.bookings u ft bp with
      | none => exact hinv
      | some mb => exact checkAndApprove_atMostOne st1 u ft bp mb.id now hinv
    · rw [if_neg hft]
      exact hinv

/-- The ledger upsert never touches the approvals table. -/
theorem upsertPaymentRecord_approvals (st : DBState) (cid iv bp ft : String)
    (un : Option String) (paidAt : Int) :
    (upsertPaymentRecord st cid iv bp ft un paidAt).approvals = st.approvals := by
  unfold upsertPaymentRecord
  by_cases h : (st.payments.any fun p => decide (p.invoiceId = iv)) = true
  · rw [if_pos h]
  · rw [if_neg h]

/-- processInvoice preserves at-most-one-link-per-invoice. -/
theorem processInvoice_atMostOne (st : DBState) (cid iv bp ft : String)
    (un : Option String) (paidAt now : Int) (hinv : AtMostOneLinkPerInvoice st) :
    AtMostOneLinkPerInvoice (processInvoice st cid iv bp ft un paidAt now) := by
  unfold processInvoice
  by_cases h : (st.payments.any fun p => decide (p.invoiceId = iv)) = true
  · rw [if_pos h]
    exact hinv
  · rw [if_neg h]
    exact pollTryMatch_atMostOne _ ft bp un now hinv

/-- The webhook handler preserves at-most-one-link-per-invoice. -/
theorem webhook_atMostOne (st : DBState) (cid iv bp ft : String)
    (un : Option String) (paidAt now : Int) (hinv : AtMostOneLinkPerInvoice st) :
    AtMostOneLinkPerInvoice (invoiceNinjaWebhook st cid iv bp ft un paidAt now) := by
  unfold invoiceNinjaWebhook
  refine webhookTryMatch_atMostOne _ ft bp un now ?_
  intro iv2
  rw [upsertPaymentRecord_approvals]
  exact hinv iv2

/-- The webhook's payments table after a delivery: unchanged when the invoice
is already recorded, the new row appended when it is fresh. -/
theorem webhook_payments (st : DBState) (cid iv bp ft : String)
    (un : Option String) (paidAt now : Int) :
    (invoiceNinjaWebhook st cid iv bp ft un paidAt now).payments =
      (if st.payments.any (fun p => decide (p.invoiceId = iv)) then st.payments
       else st.payments ++ [newLedgerRecord cid iv bp ft un paidAt]) := by
  unfold invoiceNinjaWebhook
  rw [webhookTryMatch_payments]
  unfold upsertPaymentRecord
  by_cases h : (st.payments.any fun p => decide (p.invoiceId = iv)) = true
  · rw [if_pos h, if_pos h]
  · rw [if_neg h, if_neg h]

/-- C4: a webhook delivery of a fresh invoice records exactly one
PaymentRecord for it; re-delivering any event with the same invoice id
changes no ledger row (neither duplicating nor altering the recorded one);
and every matching path — the matcher, the retry sweep, the poller's
processInvoice and the webhook — preserves at-most-one-ApprovalLink per
external invoice id. -/
theorem payment_idempotence_and_link_uniqueness (st : DBState)
    (cid iv bp ft : String) (un : Option String) (paidAt now : Int)
    (cid2 bp2 ft2 : String) (un2 : Option String) (paidAt2 now2 : Int)
    (u f bp3 bid : String)
    (hfresh : ∀ p ∈ st.payments, ¬ p.invoiceId = iv)
    (hinv : AtMostOneLinkPerInvoice st) :
    ((invoiceNinjaWebhook st cid iv bp ft un paidAt now).payments.filter
        (fun p => decide (p.invoiceId = iv))).length = 1 ∧
    (invoiceNinjaWebhook (invoiceNinjaWebhook st cid iv bp ft un paidAt now)
        cid2 iv bp2 ft2 un2 paidAt2 now2).payments =
      (invoiceNinjaWebhook st cid iv bp ft un paidAt now).payments ∧
    AtMostOneLinkPerInvoice (checkAndApproveMoveRequest st u f bp3 bid now).1 ∧
    AtMostOneLinkPerInvoice (retryMatch st now).1 ∧
    AtMostOneLinkPerInvoice (processInvoice st cid iv bp ft un paidAt now) ∧
    AtMostOneLinkPerInvoice (invoiceNinjaWebhook st cid iv bp ft un paidAt now) := by
  have hany : (st.payments.any fun p => decide (p.invoiceId = iv)) = false := by
    rw [List.any_eq_false]
    intro p hp
    simpa using hfresh p hp
  have hpay1 : (invoiceNinjaWebhook st cid iv bp ft un paidAt now).payments =
      st.payments ++ [newLedgerRecord cid iv bp ft un paidAt] := by
    rw [webhook_payments, if_neg (by rw [hany]; exact Bool.false_ne_true)]
  refine ⟨?_, ?_, checkAndApprove_atMostOne st u f bp3 bid now hinv,
    retryMatch_atMostOne st now hinv,
    processInvoice_atMostOne st cid iv bp ft un paidAt now hinv,
    webhook_atMostOne st cid iv bp ft un paidAt now hinv⟩
  · rw [hpay1, List.filter_append, List.length_append]
    have h0 : (st.payments.filter fun p => decide (p.invoiceId = iv)) = [] := by
      rw [List.filter_eq_nil_iff]
      intro p hp
      simpa using hfresh p hp
    rw [h0]
    simp [newLedgerRecord]
  · rw [webhook_payments]
    rw [if_pos ?hc]
    case hc =>
      rw [hpay1, List.any_append]
      simp [newLedgerRecord]

/-- C4 witness: delivery and re-delivery of invoice "inv9" into the ready
state. -/
theorem payment_idempotence_and_link_uniqueness_witness :
    ((invoiceNinjaWebhook stReady "c9" "inv9" "2025-07" "move_out" (some "880") 5 900).payments.filter
        (fun p => decide (p.invoiceId = "inv9"))).length = 1 :=
  (payment_idempotence_and_link_uniqueness stReady "c9" "inv9" "2025-07" "move_out"
    (some "880") 5 900 "c9" "2025-08" "move_in" none 6 901 "1105" "move_in" "2025-06" "b1"
    (by decide) (fun iv2 => by simp [linkCount, approvalsForInvoice, stReady])).1

/-- C5 counterexample: a payment record with extracted unit "1105" (fee type
move_in, not dismissed) does NOT match a SUBMITTED MOVE_IN booking whose
unit is "T4-1105": the variant expansion applies to the payment's unit only,
so every matching path's booking query comes back empty and the retry sweep
changes nothing. -/
theorem unit_variant_direction_cex :
    pmt1105.unit = some "1105" ∧ pmt1105.feeType = "move_in" ∧
    pmt1105.dismissed = false ∧ bkgT4.unit = "T4-1105" ∧
    bkgT4.moveType = .MOVE_IN ∧ bkgT4.status = .SUBMITTED ∧
    retryBookingMatch [bkgT4] "1105" "move_in" = none ∧
    pollBookingMatch [bkgT4] "1105" "move_in" "2025-06" = none ∧
    webhookBookingMatch [bkgT4] "1105" "move_in" "2025-06" = none ∧
    retryMatch ⟨[bkgT4], [pmt1105], []⟩ 900 = (⟨[bkgT4], [pmt1105], []⟩, 0) := by
  decide

/-- C5 as amended: the prefix tolerance runs from the payment's extracted
unit to the booking: a record with unit "T4-1105" (fee type move_in, not
dismissed, unmatched) matches a SUBMITTED or PENDING MOVE_IN booking for
unit "T4-1105" or "1105", a record with unit "1105" matches such a booking
for unit exactly "1105", and in each case the retry sweep creates the
ApprovalLink and approves the booking; the reverse direction (record "1105"
against booking "T4-1105") does not match. -/
theorem unit_variant_matching (b : Booking) (p : PaymentRecord) (now : Int)
    (hmatch : (p.unit = some "T4-1105" ∧ (b.unit = "T4-1105" ∨ b.unit = "1105")) ∨
      (p.unit = some "1105" ∧ b.unit = "1105"))
    (hft : p.feeType = "move_in") (hmt : b.moveType = .MOVE_IN)
    (hst : b.status = .SUBMITTED ∨ b.status = .PENDING)
    (hdis : p.dismissed = false) :
    (retryMatch ⟨[b], [p], []⟩ now).1.approvals =
      [⟨b.id, p.clientId, p.invoiceId, p.billingPeriod⟩] ∧
    (retryMatch ⟨[b], [p], []⟩ now).1.bookings =
      [{ b with status := .APPROVED, approvedAt := some now }] ∧
    (retryMatch ⟨[b], [p], []⟩ now).2 = 1 := by
  have hv1 : unitVariants "T4-1105" = ["T4-1105", "1105"] := by decide
  have hv2 : unitVariants "1105" = ["1105"] := by decide
  have hpu : p.unit = some "T4-1105" ∨ p.unit = some "1105" := by
    rcases hmatch with ⟨h, _⟩ | ⟨h, _⟩
    · exact Or.inl h
    · exact Or.inr h
  have hstep : retryBookingMatch [b] (p.unit.getD "") p.feeType = some b := by
    rcases hmatch with ⟨hp1, hb1 | hb1⟩ | ⟨hp1, hb1⟩ <;> rcases hst with hs1 | hs1 <;>
      simp [retryBookingMatch, hp1, hv1, hv2, hb1, hmt, hs1, hft,
        feeTypeToMoveType, List.find?]
  have hquery : unmatchedLedgerQuery ⟨[b], [p], []⟩ = [p] := by
    rcases hpu with hp1 | hp1 <;>
      simp [unmatchedLedgerQuery, approvalsForInvoice, hdis, hft, hp1, List.filter]
  have hnotap : ¬ b.status = .APPROVED := by
    rcases hst with hs1 | hs1 <;> simp [hs1]
  unfold retryMatch
  rw [hquery]
  simp only [List.foldl]
  unfold retryMatchStep
  rw [hstep]
  dsimp only
  rw [if_neg (by simp [approvalsForInvoice]), if_pos hnotap]
  simp

/-- C5 witness: the record for "T4-1105" approves the booking whose unit is
also "T4-1105" (the prefixed-unit booking case). -/
theorem unit_variant_matching_witness :
    (retryMatch ⟨[bkgT4], [pmtT4], []⟩ 900).1.approvals =
      [⟨bkgT4.id, pmtT4.clientId, pmtT4.invoiceId, pmtT4.billingPeriod⟩] ∧
    (retryMatch ⟨[bkgT4], [pmtT4], []⟩ 900).1.bookings =
      [{ bkgT4 with status := .APPROVED, approvedAt := some 900 }] ∧
    (retryMatch ⟨[bkgT4], [pmtT4], []⟩ 900).2 = 1 :=
  unit_variant_matching bkgT4 pmtT4 900
    (Or.inl ⟨by decide, Or.inl (by decide)⟩)
    (by decide) (by decide) (Or.inl (by decide)) (by decide)

/-- Every link present after checkAndApproveMoveRequest was already there or
references a non-dismissed ledger row of the pre-state. -/
theorem checkAndApprove_newLinks (st : DBState) (u f bp bid : String) (now : Int) :
    ∀ l ∈ (checkAndApproveMoveRequest st u f bp bid now).1.approvals,
      l ∈ st.approvals ∨
      ∃ q ∈ st.payments, q.invoiceId = l.invoiceId ∧ q.dismissed = false := by
  unfold checkAndApproveMoveRequest
  cases hp : checkAndApprovePhase1 st u f bid with
  | none => exact fun l hl => Or.inl hl
  | some payment =>
    have hspec := checkAndApprovePhase1_spec st u f bid payment hp
    intro l hl
    have hl' : l ∈ st.approvals ++ [⟨bid, payment.clientId, payment.invoiceId, bp⟩] := hl
    rw [List.mem_append, List.mem_singleton] at hl'
    rcases hl' with h | rfl
    · exact Or.inl h
    · exact Or.inr ⟨payment, hspec.1, rfl, hspec.2.1⟩

/-- Every link present after the retry sweep was already there or references
a non-dismissed ledger row of the pre-state. -/
theorem retryMatch_newLinks (st : DBState) (now : Int) :
    ∀ l ∈ (retryMatch st now).1.approvals,
      l ∈ st.approvals ∨
      ∃ q ∈ st.payments, q.invoiceId = l.invoiceId ∧ q.dismissed = false := by
  have hq : ∀ p ∈ unmatchedLedgerQuery st, p ∈ st.payments ∧ p.dismissed = false := by
    intro p hp
    unfold unmatchedLedgerQuery at hp
    rw [List.mem_filter] at hp
    have hcond := hp.2
    simp only [Bool.and_eq_true, Bool.not_eq_true'] at hcond
    exact ⟨hp.1, hcond.1.1.2⟩
  unfold retryMatch
  suffices h : ∀ (ps : List PaymentRecord),
      (∀ p ∈ ps, p ∈ st.payments ∧ p.dismissed = false) →
      ∀ (acc : DBState × Nat),
      (∀ l ∈ acc.1.approvals, l ∈ st.approvals ∨
        ∃ q ∈ st.payments, q.invoiceId = l.invoiceId ∧ q.dismissed = false) →
      ∀ l ∈ ((ps.foldl (fun acc payment =>
        let next := retryMatchStep now acc.1 payment
        (next.1, if next.2 then acc.2 + 1 else acc.2)) acc)).1.approvals,
        l ∈ st.approvals ∨
        ∃ q ∈ st.payments, q.invoiceId = l.invoiceId ∧ q.dismissed = false from
    h _ hq (st, 0) (fun l hl => Or.inl hl)
  intro ps
  induction ps with
  | nil => exact fun _ acc hacc => hacc
  | cons p ps ih =>
    intro hps acc hacc
    refine ih (fun q hq' => hps q (List.mem_cons_of_mem p hq')) _ ?_
    intro l hl
    have hl2 : l ∈ (retryMatchStep now acc.1 p).1.approvals := hl
    rcases retryMatchStep_links now acc.1 p with heq | ⟨hemp, bid, heq⟩
    · rw [heq] at hl2
      exact hacc l hl2
    · rw [heq, List.mem_append, List.mem_singleton] at hl2
      rcases hl2 with h | rfl
      · exact hacc l h
      · exact Or.inr ⟨p, (hps p (List.mem_cons_self p ps)).1, rfl,
          (hps p (List.mem_cons_self p ps)).2⟩

/-- Every link present after the poller's match tail was already there or
references a non-dismissed ledger row of its input state. -/
theorem pollTryMatch_newLinks (st1 : DBState) (ft bp : String) (un : Option String)
    (now : Int) :
    ∀ l ∈ (pollTryMatch st1 ft bp un now).approvals,
      l ∈ st1.approvals ∨
      ∃ q ∈ st1.payments, q.invoiceId = l.invoiceId ∧ q.dismissed = false := by
  unfold pollTryMatch
  cases un with
  | none => exact fun l hl => Or.inl hl
  | some u =>
    dsimp only
    by_cases hft : ¬ ft = "unknown"
    · rw [if_pos hft]
      cases hm : pollBookingMatch st1.bookings u ft bp with
      | none => exact fun l hl => Or.inl hl
      | some mb => exact checkAndApprove_newLinks st1 u ft bp mb.id now
    · rw [if_neg hft]
      exact fun l hl => Or.inl hl

/-- Every link present after the webhook's match tail was already there or
references a non-dismissed ledger row of its input state. -/
theorem webhookTryMatch_newLinks (st1 : DBState) (ft bp : String) (un : Option String)
    (now : Int) :
    ∀ l ∈ (webhookTryMatch st1 ft bp un now).approvals,
      l ∈ st1.approvals ∨
      ∃ q ∈ st1.payments, q.invoiceId = l.invoiceId ∧ q.dismissed = false := by
  unfold webhookTryMatch
  cases un with
  | none => exact fun l hl => Or.inl hl
  | some u =>
    dsimp only
    by_cases hft : ¬ ft = "unknown"
    · rw [if_pos hft]
      cases hm : webhookBookingMatch st1.bookings u ft bp with
      | none => exact fun l hl => Or.inl hl
      | some mb => exact checkAndApprove_newLinks st1 u ft bp mb.id now
    · rw [if_neg hft]
      exact fun l hl => Or.inl hl

/-- processInvoice never creates a link for a dismissed record's invoice
(over a ledger with unique invoice ids). -/
theorem processInvoice_dismissed_safe (st : DBState) (cid iv bp ft : String)
    (un : Option String) (paidAt now : Int) (p : PaymentRecord)
    (huniq : PaymentsInvoiceUnique st.payments) (hp : p ∈ st.payments)
    (hd : p.dismissed = true) :
    ∀ l ∈ (processInvoice st cid iv bp ft un paidAt now).approvals,
      l.invoiceId = p.invoiceId → l ∈ st.approvals := by
  unfold processInvoice
  by_cases hex : (st.payments.any fun q => decide (q.invoiceId = iv)) = true
  · rw [if_pos hex]
    exact fun l hl _ => hl
  · rw [if_neg hex]
    intro l hl hliv
    have hnew := pollTryMatch_newLinks _ ft bp un now l hl
    rcases hnew with h | ⟨q, hqmem, hqiv, hqdis⟩
    · exact h
    · have hqmem' : q ∈ st.payments ++ [newLedgerRecord cid iv bp ft un paidAt] := hqmem
      rw [List.mem_append, List.mem_singleton] at hqmem'
      rcases hqmem' with hq1 | rfl
      · have hqp : q = p := huniq q hq1 p hp (by rw [hqiv, hliv])
        subst hqp
        rw [hqdis] at hd
        exact absurd hd (by simp)
      · exfalso
        apply hex
        rw [List.any_eq_true]
        refine ⟨p, hp, ?_⟩
        have hpi : p.invoiceId = iv := by
          rw [← hliv, ← hqiv]
          rfl
        exact decide_eq_true hpi

/-- The webhook never creates a link for a dismissed record's invoice (over
a ledger with unique invoice ids). -/
theorem webhook_dismissed_safe (st : DBState) (cid iv bp ft : String)
    (un : Option String) (paidAt now : Int) (p : PaymentRecord)
    (huniq : PaymentsInvoiceUnique st.payments) (hp : p ∈ st.payments)
    (hd : p.dismissed = true) :
    ∀ l ∈ (invoiceNinjaWebhook st cid iv bp ft un paidAt now).approvals,
      l.invoiceId = p.invoiceId → l ∈ st.approvals := by
  unfold invoiceNinjaWebhook
  intro l hl hliv
  have hnew := webhookTryMatch_newLinks _ ft bp un now l hl
  rcases hnew with h | ⟨q, hqmem, hqiv, hqdis⟩
  · rwa [upsertPaymentRecord_approvals] at h
  · unfold upsertPaymentRecord at hqmem
    by_cases hex : (st.payments.any fun r => decide (r.invoiceId = iv)) = true
    · rw [if_pos hex] at hqmem
      have hqp : q = p := huniq q hqmem p hp (by rw [hqiv, hliv])
      subst hqp
      rw [hqdis] at hd
      exact absurd hd (by simp)
    · rw [if_neg hex] at hqmem
      have hqmem' : q ∈ st.payments ++ [newLedgerRecord cid iv bp ft un paidAt] := hqmem
      rw [List.mem_append, List.mem_singleton] at hqmem'
      rcases hqmem' with hq1 | rfl
      · have hqp : q = p := huniq q hq1 p hp (by rw [hqiv, hliv])
        subst hqp
        rw [hqdis] at hd
        exact absurd hd (by simp)
      · exfalso
        apply hex
        rw [List.any_eq_true]
        refine ⟨p, hp, ?_⟩
        have hpi : p.invoiceId = iv := by
          rw [← hliv, ← hqiv]
          rfl
        exact decide_eq_true hpi

/-- C6: over a ledger with unique invoice ids, a dismissed record is never
matched: no matching path (the matcher, the retry sweep, processInvoice or
the webhook) creates an ApprovalLink for its invoice; the matcher changes
nothing at all unless it creates a link (so it never approves a booking from
a dismissed record); and restoring a record clears all dismissal fields. -/
theorem dismissed_never_matched (st : DBState) (p : PaymentRecord)
    (u f bp bid cid iv bp2 ft : String) (un : Option String) (paidAt now : Int)
    (huniq : PaymentsInvoiceUnique st.payments)
    (hp : p ∈ st.payments) (hd : p.dismissed = true) :
    (∀ l ∈ (checkAndApproveMoveRequest st u f bp bid now).1.approvals,
      l.invoiceId = p.invoiceId → l ∈ st.approvals) ∧
    (∀ l ∈ (retryMatch st now).1.approvals,
      l.invoiceId = p.invoiceId → l ∈ st.approvals) ∧
    (∀ l ∈ (processInvoice st cid iv bp2 ft un paidAt now).approvals,
      l.invoiceId = p.invoiceId → l ∈ st.approvals) ∧
    (∀ l ∈ (invoiceNinjaWebhook st cid iv bp2 ft un paidAt now).approvals,
      l.invoiceId = p.invoiceId → l ∈ st.approvals) ∧
    ((checkAndApproveMoveRequest st u f bp bid now).1.approvals = st.approvals →
      (checkAndApproveMoveRequest st u f bp bid now).1 = st) ∧
    (∀ q ∈ (restoreRecord st p.id).payments, q.id = p.id →
      q.dismissed = false ∧ q.dismissedReason = none ∧ q.dismissedAt = none) := by
  have huse : ∀ (res : List MoveApproval),
      (∀ l ∈ res, l ∈ st.approvals ∨
        ∃ q ∈ st.payments, q.invoiceId = l.invoiceId ∧ q.dismissed = false) →
      ∀ l ∈ res, l.invoiceId = p.invoiceId → l ∈ st.approvals := by
    intro res hres l hl hliv
    rcases hres l hl with h | ⟨q, hq, hqiv, hqdis⟩
    · exact h
    · have hqp : q = p := huniq q hq p hp (by rw [hqiv, hliv])
      subst hqp
      rw [hqdis] at hd
      exact absurd hd (by simp)
  refine ⟨huse _ (checkAndApprove_newLinks st u f bp bid now),
    huse _ (retryMatch_newLinks st now),
    processInvoice_dismissed_safe st cid iv bp2 ft un paidAt now p huniq hp hd,
    webhook_dismissed_safe st cid iv bp2 ft un paidAt now p huniq hp hd, ?_, ?_⟩
  · intro heq
    cases hph : checkAndApprovePhase1 st u f bid with
    | none => simp only [checkAndApproveMoveRequest, hph]
    | some payment =>
      exfalso
      unfold checkAndApproveMoveRequest at heq
      rw [hph] at heq
      dsimp only at heq
      have := congrArg List.length heq
      simp [approvalTransaction] at this
  · intro q hq hqid
    unfold restoreRecord at hq
    simp only [List.mem_map] at hq
    obtain ⟨orig, horig, rfl⟩ := hq
    by_cases h : orig.id = p.id
    · rw [if_pos h]
      simp
    · rw [if_neg h] at hqid ⊢
      exact absurd hqid h

/-- C6 witness: the theorem applied to the state whose only ledger record is
dismissed (next to a booking that would otherwise match), its restore
conjunct instantiated at the restored row. -/
theorem dismissed_never_matched_witness :
    pmtRestored.dismissed = false ∧ pmtRestored.dismissedReason = none ∧
    pmtRestored.dismissedAt = none :=
  (dismissed_never_matched stDismissed pmtDismissed "1105" "move_in" "2025-06" "b1"
    "c9" "inv9" "2025-07" "move_in" (some "1105") 0 900
    (by unfold PaymentsInvoiceUnique; decide) (by decide) (by decide)).2.2.2.2.2
    pmtRestored (by decide) (by decide)

end MoveCal
